import Mathlib

/-!
A shallow embedding of the two tool plugins of the agent-tools repository:
the weather forecast tool (`src/weatherForecast.js`) and the two variants of
the currency conversion tool (the offline rate-table variant in
`src/index.js` and the API-backed variant). JavaScript numbers are modelled
as exact rationals together with NaN and undefined markers; JSON values as
an inductive type; external HTTP calls as environment functions returning
either a response or a thrown error value. Progress publications are
collected into a list in call order.
-/

/-- A JSON value, as produced by `JSON.stringify` (NaN already mapped to
null while serializing). -/
inductive Json where
  | null
  | bool (b : Bool)
  | num (q : ℚ)
  | str (s : String)
  | arr (elems : List Json)
  | obj (fields : List (String × Json))

/-- A JavaScript number-or-absent argument value: an exact rational, NaN,
or undefined. -/
inductive JsNum where
  | num (q : ℚ)
  | nan
  | undefined
deriving DecidableEq

/-- JavaScript multiplication on `JsNum`: any non-number operand yields NaN
(`undefined * x` is NaN). -/
def jsMul : JsNum → JsNum → JsNum
  | .num a, .num b => .num (a * b)
  | _, _ => .nan

/-- Round a rational to 2 decimal places, ties toward positive infinity, as
`Number.prototype.toFixed(2)` rounds (pick n closest to x*100, the larger n
on a tie). -/
def roundHalfUp2 (q : ℚ) : ℚ := (Rat.floor (q * 100 + 1 / 2) : ℚ) / 100

/-- Model of `parseFloat(x.toFixed(2))`: rounding for numbers, NaN
otherwise (`NaN.toFixed(2)` is "NaN" and `parseFloat("NaN")` is NaN). -/
def toFixed2 : JsNum → JsNum
  | .num q => .num (roundHalfUp2 q)
  | _ => .nan

/-- Multiplicity of `p` in `n`, computed with explicit fuel so that the
definition reduces by kernel iota-reduction. -/
def powDivAux : ℕ → ℕ → ℕ → ℕ
  | 0, _, _ => 0
  | fuel + 1, p, n => if 1 < p ∧ p ∣ n ∧ n ≠ 0 then powDivAux fuel p (n / p) + 1 else 0

/-- Multiplicity of `p` in `n` (fuel `n` suffices since the multiplicity is
at most `log p n`). -/
def multOf (p n : ℕ) : ℕ := powDivAux n p n

/-- Number of decimal digits needed to write `1/d` exactly: `some k` when
`d = 2^a * 5^b` with `k = max a b`, otherwise `none`. -/
def decDigitsOfDen (d : ℕ) : Option ℕ :=
  let a := multOf 2 d
  let b := multOf 5 d
  if 2 ^ a * 5 ^ b = d then some (max a b) else none

/-- Decimal digits of a natural number, as JavaScript prints it. -/
def natToString (n : ℕ) : String := String.mk (Nat.toDigits 10 n)

/-- Print a nonnegative rational the way JavaScript prints the
corresponding number: integers without a point, terminating decimals with
the minimal number of fractional digits. Every JavaScript number is a
binary float and hence a terminating decimal, so the fallback branch is
unreachable on values a JavaScript execution can produce. -/
def ratNonnegToString (q : ℚ) : String :=
  match decDigitsOfDen q.den with
  | some 0 => natToString q.num.natAbs
  | some (k + 1) =>
      let ds := Nat.toDigits 10 (q.num.natAbs * (10 ^ (k + 1) / q.den))
      let padded := List.replicate (k + 2 - ds.length) '0' ++ ds
      let m := padded.length - (k + 1)
      String.mk (padded.take m ++ ('.' :: padded.drop m))
  | none => natToString q.num.natAbs ++ "/" ++ natToString q.den

/-- Print a rational as JavaScript string coercion would. -/
def ratToString (q : ℚ) : String :=
  if q < 0 then "-" ++ ratNonnegToString (-q) else ratNonnegToString q

/-- JavaScript string coercion of a `JsNum`, as in template literals. -/
def jsNumToString : JsNum → String
  | .num q => ratToString q
  | .nan => "NaN"
  | .undefined => "undefined"

/-- `JSON.stringify` of a `JsNum`-valued field: NaN has no JSON
representation and serializes as null. -/
def jsonOfJsNum : JsNum → Json
  | .num q => .num q
  | _ => .null

/-- Association-list lookup, modelling JavaScript property access on the
embedded object literals. -/
def assoc {κ α : Type} [DecidableEq κ] (k : κ) : List (κ × α) → Option α
  | [] => none
  | (k', v) :: rest => if k = k' then some v else assoc k rest

/-- JavaScript `||` on strings: an empty string is falsy. -/
def jsStrOr (s fallback : String) : String := if s = "" then fallback else s

/-- JavaScript truthiness of a JSON value. -/
def jsonTruthy : Json → Bool
  | .null => false
  | .bool b => b
  | .num q => decide (q ≠ 0)
  | .str s => decide (s ≠ "")
  | .arr _ => true
  | .obj _ => true

/-- JavaScript `||` on JSON values. -/
def jsonOr (a b : Json) : Json := if jsonTruthy a then a else b

/-- A thrown JavaScript error: its `message` (empty when absent) and the
optional `response.data` body attached by axios on HTTP failures. -/
structure JsError where
  message : String
  responseData : Option Json

/-- The `details` field of an error envelope: `error.response?.data || null`. -/
def errDetails (e : JsError) : Json := jsonOr (e.responseData.getD .null) .null

/-- One progress publication: the `data` part of a `progress` event. -/
structure ProgressEvent where
  message : String
  progress : ℕ
deriving DecidableEq

/-- Publish a progress event when a sink was supplied by the caller. -/
def pubIf (sink : Bool) (ev : ProgressEvent) : List ProgressEvent :=
  if sink then [ev] else []

/-- Top-level keys of a JSON object. -/
def topKeys : Json → Option (List String)
  | .obj fields => some (fields.map (·.1))
  | _ => none

/-- Field of a JSON object. -/
def jsonField (k : String) : Json → Option Json
  | .obj fields => assoc k fields
  | _ => none

/-- Field of the `data` object of a success envelope. -/
def dataField (k : String) (j : Json) : Option Json :=
  (jsonField "data" j).bind (jsonField k)

/-- The `error.message` string of an error envelope. -/
def errMessage (j : Json) : Option String :=
  match (jsonField "error" j).bind (jsonField "message") with
  | some (.str s) => some s
  | _ => none

/-- Substring test on the underlying character lists. -/
def strContains (hay needle : String) : Bool :=
  hay.data.tails.any (fun t => needle.data.isPrefixOf t)

/-- A weather description and icon pair, a value of the weather code map. -/
structure WeatherInfo where
  description : String
  icon : String
deriving DecidableEq

/-- The fixed weather-code lookup table of `weatherForecast.js`. -/
def weatherCodeMap : List (ℚ × WeatherInfo) := [
  (0, ⟨"Clear sky", "01d"⟩),
  (1, ⟨"Mainly clear", "02d"⟩),
  (2, ⟨"Partly cloudy", "03d"⟩),
  (3, ⟨"Overcast", "04d"⟩),
  (45, ⟨"Fog", "50d"⟩),
  (48, ⟨"Depositing rime fog", "50d"⟩),
  (51, ⟨"Light drizzle", "09d"⟩),
  (53, ⟨"Moderate drizzle", "09d"⟩),
  (55, ⟨"Dense drizzle", "09d"⟩),
  (61, ⟨"Slight rain", "10d"⟩),
  (63, ⟨"Moderate rain", "10d"⟩),
  (65, ⟨"Heavy rain", "10d"⟩),
  (71, ⟨"Slight snow fall", "13d"⟩),
  (73, ⟨"Moderate snow fall", "13d"⟩),
  (75, ⟨"Heavy snow fall", "13d"⟩),
  (95, ⟨"Thunderstorm", "11d"⟩),
  (96, ⟨"Thunderstorm with slight hail", "11d"⟩),
  (99, ⟨"Thunderstorm with heavy hail", "11d"⟩)]

/-- Query parameters of the geocoding call. -/
structure GeoQuery where
  name : String
  count : ℕ
  language : String
  format : String
deriving DecidableEq

/-- One element of the geocoding `results` list. -/
structure GeoResult where
  latitude : ℚ
  longitude : ℚ
  name : String
  country_code : String

/-- Query parameters of the current-conditions call. -/
structure WeatherQuery where
  latitude : ℚ
  longitude : ℚ
  current : String
  temperature_unit : String
  wind_speed_unit : String
  timezone : String
deriving DecidableEq

/-- The `current` block of the conditions provider response. -/
structure WeatherCurrent where
  temperature_2m : ℚ
  relative_humidity_2m : ℚ
  apparent_temperature : ℚ
  precipitation : ℚ
  weather_code : ℚ
  pressure_msl : ℚ
  wind_speed_10m : ℚ
  wind_direction_10m : ℚ
  cloud_cover : ℚ
  time : String

/-- The external world visible to the weather executor: the geocoding call
and the conditions call, each returning data or rejecting with an error.
The geocoding `results` field is `none` when absent from the payload. -/
structure WeatherEnv where
  geocode : GeoQuery → Except JsError (Option (List GeoResult))
  forecast : WeatherQuery → Except JsError WeatherCurrent

/-- The fixed `current` parameter string sent to the conditions provider. -/
def currentParamStr : String :=
  "temperature_2m,relative_humidity_2m,apparent_temperature,precipitation,weather_code,pressure_msl,wind_speed_10m,wind_direction_10m,cloud_cover"

/-- The geocoding query built from a location: `count` is fixed at 1. -/
def geoQueryOf (location : String) : GeoQuery := ⟨location, 1, "en", "json"⟩

/-- The conditions query built from the chosen geocoding result and the
requested unit system. -/
def weatherQueryOf (r : GeoResult) (units : String) : WeatherQuery :=
  ⟨r.latitude, r.longitude, currentParamStr,
    (if units = "metric" then "celsius" else "fahrenheit"),
    (if units = "metric" then "ms" else "mph"), "auto"⟩

/-- The error envelope of the weather executor. -/
def weatherErrEnvelope (e : JsError) : Json :=
  .obj [("error", .obj [
    ("message", .str (jsStrOr e.message "Failed to retrieve weather data")),
    ("details", errDetails e)])]

/-- The `location` block of the weather output, copied from one geocoding
result. -/
def locationJsonOf (r : GeoResult) : Json :=
  .obj [("name", .str r.name), ("country", .str r.country_code),
    ("coordinates", .obj [("lat", .num r.latitude), ("lon", .num r.longitude)])]

/-- The `units` block of the weather output, a function of the requested
unit system only. -/
def unitsJsonOf (units : String) : Json :=
  if units = "metric" then
    .obj [("temperature", .str "°C"), ("wind", .str "m/s")]
  else
    .obj [("temperature", .str "°F"), ("wind", .str "mph")]

/-- The `current` block of the weather output. -/
def currentJsonOf (current : WeatherCurrent) (info : WeatherInfo) : Json :=
  .obj [
    ("temperature", .num current.temperature_2m),
    ("feels_like", .num current.apparent_temperature),
    ("humidity", .num current.relative_humidity_2m),
    ("pressure", .num current.pressure_msl),
    ("description", .str info.description),
    ("icon", .str info.icon),
    ("wind", .obj [("speed", .num current.wind_speed_10m),
      ("direction", .num current.wind_direction_10m)]),
    ("cloudiness", .num current.cloud_cover),
    ("timestamp", .str current.time)]

/-- The weather forecast executor of `src/weatherForecast.js`, returning
the serialized envelope together with the progress events published. -/
def weatherForecastExecutor (env : WeatherEnv) (location units : String)
    (sink : Bool) : Json × List ProgressEvent :=
  let ev1 := pubIf sink ⟨"Fetching weather data for " ++ location ++ "...", 25⟩
  match env.geocode (geoQueryOf location) with
  | .error e => (weatherErrEnvelope e, ev1)
  | .ok results? =>
    match results? with
    | none =>
      (weatherErrEnvelope ⟨"Location \"" ++ location ++ "\" not found", none⟩, ev1)
    | some [] =>
      (weatherErrEnvelope ⟨"Location \"" ++ location ++ "\" not found", none⟩, ev1)
    | some (locationData :: _) =>
      match env.forecast (weatherQueryOf locationData units) with
      | .error e => (weatherErrEnvelope e, ev1)
      | .ok current =>
        let ev2 := ev1 ++ pubIf sink ⟨"Processing weather information...", 75⟩
        let weatherInfo :=
          (assoc current.weather_code weatherCodeMap).getD ⟨"Unknown", "03d"⟩
        let formattedData : Json := .obj [
          ("location", locationJsonOf locationData),
          ("current", currentJsonOf current weatherInfo),
          ("units", unitsJsonOf units)]
        let ev3 := ev2 ++ pubIf sink ⟨"Weather data retrieved successfully!", 100⟩
        (.obj [("data", formattedData)], ev3)

/-- The hardcoded exchange-rate table of the offline currency variant in
`src/index.js`. -/
def exchangeRates : List (String × List (String × ℚ)) := [
  ("USD", [("EUR", 0.93), ("GBP", 0.79), ("JPY", 151.72), ("CAD", 1.38),
    ("AUD", 1.52), ("CHF", 0.89), ("CNY", 7.21), ("INR", 83.45)]),
  ("EUR", [("USD", 1.08), ("GBP", 0.85), ("JPY", 163.85), ("CAD", 1.49),
    ("AUD", 1.64), ("CHF", 0.96), ("CNY", 7.79), ("INR", 90.13)]),
  ("GBP", [("USD", 1.27), ("EUR", 1.17), ("JPY", 191.90), ("CAD", 1.74),
    ("AUD", 1.92), ("CHF", 1.13), ("CNY", 9.12), ("INR", 105.48)])]

/-- The error envelope of the offline currency variant: message only, no
details field. -/
def currencyErrEnvelope (msg : String) : Json :=
  .obj [("error", .obj [("message", .str (jsStrOr msg "Failed to convert currency"))])]

/-- The equivalence string, built from the unrounded input amount and the
rounded converted amount. -/
def equivalentStringOf (amount : JsNum) (fromCurrency toCurrency : String)
    (formattedAmount : JsNum) : String :=
  jsNumToString amount ++ " " ++ fromCurrency ++ " = " ++
    jsNumToString formattedAmount ++ " " ++ toCurrency

/-- The offline currency executor of `src/index.js`: rate lookup in the
hardcoded table, one progress event at checkpoint 50 on the success path.
`now` stands for `new Date().toISOString()`. A rate that is present but
zero is falsy in the `!exchangeRates[from][to]` test, hence unsupported. -/
def convertCurrencyExecutor (amount : JsNum) (fromCurrency toCurrency : String)
    (sink : Bool) (now : String) : Json × List ProgressEvent :=
  match assoc fromCurrency exchangeRates with
  | none => (currencyErrEnvelope ("Unsupported currency: " ++ fromCurrency), [])
  | some table =>
    match assoc toCurrency table with
    | none =>
      (currencyErrEnvelope ("Conversion from " ++ fromCurrency ++ " to " ++
        toCurrency ++ " is not supported"), [])
    | some rate =>
      if rate = 0 then
        (currencyErrEnvelope ("Conversion from " ++ fromCurrency ++ " to " ++
          toCurrency ++ " is not supported"), [])
      else
        let formattedAmount := toFixed2 (jsMul amount (.num rate))
        let ev := pubIf sink ⟨"Converting " ++ jsNumToString amount ++ " " ++
          fromCurrency ++ " to " ++ toCurrency ++ "...", 50⟩
        (Json.obj [("data", .obj [
          ("amount", jsonOfJsNum formattedAmount),
          ("fromCurrency", .str fromCurrency),
          ("toCurrency", .str toCurrency),
          ("rate", .num rate),
          ("equivalentString",
            .str (equivalentStringOf amount fromCurrency toCurrency formattedAmount)),
          ("timestamp", .str now)])], ev)

/-- The rate provider response body of the API-backed currency variant:
each field is `none` when absent from the payload. -/
structure RatesData where
  rates : Option (List (String × ℚ))
  time_last_updated : Option ℤ
  provider : Option String

/-- The external world visible to the API-backed currency executor: the
rate fetch keyed by source currency (`.ok none` models a falsy response
body), and the epoch-seconds to ISO-8601 conversion done by `Date`. -/
structure CurrencyEnv where
  getRates : String → Except JsError (Option RatesData)
  epochToIso : ℤ → String

/-- The error envelope of the API-backed currency variant: message and
details. -/
def currencyApiErrEnvelope (e : JsError) : Json :=
  .obj [("error", .obj [
    ("message", .str (jsStrOr e.message "Failed to convert currency")),
    ("details", errDetails e)])]

/-- The `lastUpdated` field: epoch seconds converted to ISO-8601 when
present and truthy (epoch 0 is falsy), otherwise null. -/
def lastUpdatedJson (env : CurrencyEnv) : Option ℤ → Json
  | some t => if t = 0 then .null else .str (env.epochToIso t)
  | none => .null

/-- The API-backed currency executor of the convert-currency source file:
fetches a rate table for the source currency, looks up the target, and
publishes checkpoints 25, 75, 100 on the success path. -/
def convertCurrencyApiExecutor (env : CurrencyEnv) (amount : JsNum)
    (fromCurrency toCurrency : String) (sink : Bool) (now : String) :
    Json × List ProgressEvent :=
  let ev1 := pubIf sink ⟨"Fetching current exchange rates...", 25⟩
  match env.getRates fromCurrency with
  | .error e => (currencyApiErrEnvelope e, ev1)
  | .ok data? =>
    match data? with
    | none => (currencyApiErrEnvelope ⟨"Failed to fetch exchange rates", none⟩, ev1)
    | some exchangeRateData =>
      match exchangeRateData.rates with
      | none => (currencyApiErrEnvelope ⟨"Failed to fetch exchange rates", none⟩, ev1)
      | some rates =>
        match assoc toCurrency rates with
        | none =>
          (currencyApiErrEnvelope
            ⟨"Conversion to " ++ toCurrency ++ " is not supported", none⟩, ev1)
        | some rate =>
          if rate = 0 then
            (currencyApiErrEnvelope
              ⟨"Conversion to " ++ toCurrency ++ " is not supported", none⟩, ev1)
          else
            let ev2 := ev1 ++ pubIf sink ⟨"Converting " ++ jsNumToString amount ++
              " " ++ fromCurrency ++ " to " ++ toCurrency ++ "...", 75⟩
            let formattedAmount := toFixed2 (jsMul amount (.num rate))
            let ev3 := ev2 ++ pubIf sink ⟨"Conversion complete!", 100⟩
            (Json.obj [("data", .obj [
              ("amount", jsonOfJsNum formattedAmount),
              ("fromCurrency", .str fromCurrency),
              ("toCurrency", .str toCurrency),
              ("rate", .num rate),
              ("equivalentString",
                .str (equivalentStringOf amount fromCurrency toCurrency formattedAmount)),
              ("timestamp", .str now),
              ("lastUpdated", lastUpdatedJson env exchangeRateData.time_last_updated),
              ("provider",
                .str (jsStrOr (exchangeRateData.provider.getD "") "Exchange Rate API"))])],
              ev3)

/-- A sample geocoding result, used to instantiate environment-quantified
theorems on concrete inputs. -/
def sampleGeoResult : GeoResult := ⟨51.5074, -0.1278, "London", "GB"⟩

/-- A sample conditions payload carrying a given weather code. -/
def sampleCurrent (code : ℚ) : WeatherCurrent :=
  ⟨15.2, 76, 14.8, 0.1, code, 1012.5, 4.2, 240, 75, "2023-06-15T12:00:00Z"⟩

/-- A sample weather environment: one geocoding match, conditions with a
given weather code. -/
def sampleWeatherEnv (code : ℚ) : WeatherEnv :=
  ⟨fun _ => .ok (some [sampleGeoResult]), fun _ => .ok (sampleCurrent code)⟩

/-- A sample currency environment serving a fixed rate list for every
source currency. -/
def sampleCurrencyEnv (rates : List (String × ℚ)) : CurrencyEnv :=
  ⟨fun _ => .ok (some ⟨some rates, none, none⟩), fun _ => ""⟩

/-- A sample currency environment whose response body lacks the `rates`
field, as the rate API answers for an unknown source currency. -/
def noRatesCurrencyEnv : CurrencyEnv :=
  ⟨fun _ => .ok (some ⟨none, none, none⟩), fun _ => ""⟩

/-- A successful weather invocation presupposes a nonempty geocoding result
list and a successful conditions call. -/
theorem weather_success_cases (env : WeatherEnv) (location units : String) (sink : Bool)
    (h : topKeys (weatherForecastExecutor env location units sink).1 = some ["data"]) :
    ∃ r rest current, env.geocode (geoQueryOf location) = .ok (some (r :: rest)) ∧
      env.forecast (weatherQueryOf r units) = .ok current := by
  cases hE : env.geocode (geoQueryOf location) with
  | error e => simp [weatherForecastExecutor, hE, weatherErrEnvelope, topKeys] at h
  | ok results? =>
    cases results? with
    | none => simp [weatherForecastExecutor, hE, weatherErrEnvelope, topKeys] at h
    | some l =>
      cases l with
      | nil => simp [weatherForecastExecutor, hE, weatherErrEnvelope, topKeys] at h
      | cons r rest =>
        cases hF : env.forecast (weatherQueryOf r units) with
        | error e => simp [weatherForecastExecutor, hE, hF, weatherErrEnvelope, topKeys] at h
        | ok current => exact ⟨r, rest, current, rfl, hF⟩

/-- The value of a successful weather invocation, as a function of the
first geocoding result and the conditions payload. -/
theorem weather_success_eq (env : WeatherEnv) (location units : String) (sink : Bool)
    (r : GeoResult) (rest : List GeoResult) (current : WeatherCurrent)
    (hG : env.geocode (geoQueryOf location) = .ok (some (r :: rest)))
    (hF : env.forecast (weatherQueryOf r units) = .ok current) :
    weatherForecastExecutor env location units sink =
      (Json.obj [("data", Json.obj [
        ("location", locationJsonOf r),
        ("current", currentJsonOf current
          ((assoc current.weather_code weatherCodeMap).getD ⟨"Unknown", "03d"⟩)),
        ("units", unitsJsonOf units)])],
       pubIf sink ⟨"Fetching weather data for " ++ location ++ "...", 25⟩ ++
         pubIf sink ⟨"Processing weather information...", 75⟩ ++
         pubIf sink ⟨"Weather data retrieved successfully!", 100⟩) := by
  simp [weatherForecastExecutor, hG, hF]

/-- A successful offline currency invocation presupposes a supported,
nonzero rate for the requested pair. -/
theorem offline_success_cases (amount : JsNum) (fromCurrency toCurrency : String)
    (sink : Bool) (now : String)
    (h : topKeys (convertCurrencyExecutor amount fromCurrency toCurrency sink now).1 =
      some ["data"]) :
    ∃ table rate, assoc fromCurrency exchangeRates = some table ∧
      assoc toCurrency table = some rate ∧ rate ≠ 0 := by
  cases hT : assoc fromCurrency exchangeRates with
  | none => simp [convertCurrencyExecutor, hT, currencyErrEnvelope, topKeys] at h
  | some table =>
    cases hR : assoc toCurrency table with
    | none => simp [convertCurrencyExecutor, hT, hR, currencyErrEnvelope, topKeys] at h
    | some rate =>
      by_cases hz : rate = 0
      · simp [convertCurrencyExecutor, hT, hR, hz, currencyErrEnvelope, topKeys] at h
      · exact ⟨table, rate, rfl, hR, hz⟩

/-- The value of a successful offline currency invocation. -/
theorem offline_success_eq (amount : JsNum) (fromCurrency toCurrency : String)
    (sink : Bool) (now : String) (table : List (String × ℚ)) (rate : ℚ)
    (hT : assoc fromCurrency exchangeRates = some table)
    (hR : assoc toCurrency table = some rate) (hz : rate ≠ 0) :
    convertCurrencyExecutor amount fromCurrency toCurrency sink now =
      (Json.obj [("data", Json.obj [
        ("amount", jsonOfJsNum (toFixed2 (jsMul amount (.num rate)))),
        ("fromCurrency", .str fromCurrency),
        ("toCurrency", .str toCurrency),
        ("rate", .num rate),
        ("equivalentString", .str (equivalentStringOf amount fromCurrency toCurrency
          (toFixed2 (jsMul amount (.num rate))))),
        ("timestamp", .str now)])],
       pubIf sink ⟨"Converting " ++ jsNumToString amount ++ " " ++ fromCurrency ++
         " to " ++ toCurrency ++ "...", 50⟩) := by
  simp [convertCurrencyExecutor, hT, hR, hz]

/-- A successful API-variant currency invocation presupposes a response
body with a rate table containing a nonzero rate for the target. -/
theorem api_success_cases (env : CurrencyEnv) (amount : JsNum)
    (fromCurrency toCurrency : String) (sink : Bool) (now : String)
    (h : topKeys (convertCurrencyApiExecutor env amount fromCurrency toCurrency sink now).1 =
      some ["data"]) :
    ∃ d rates rate, env.getRates fromCurrency = .ok (some d) ∧ d.rates = some rates ∧
      assoc toCurrency rates = some rate ∧ rate ≠ 0 := by
  cases hE : env.getRates fromCurrency with
  | error e => simp [convertCurrencyApiExecutor, hE, currencyApiErrEnvelope, topKeys] at h
  | ok data? =>
    cases data? with
    | none => simp [convertCurrencyApiExecutor, hE, currencyApiErrEnvelope, topKeys] at h
    | some d =>
      cases hRs : d.rates with
      | none => simp [convertCurrencyApiExecutor, hE, hRs, currencyApiErrEnvelope, topKeys] at h
      | some rates =>
        cases hR : assoc toCurrency rates with
        | none =>
          simp [convertCurrencyApiExecutor, hE, hRs, hR, currencyApiErrEnvelope, topKeys] at h
        | some rate =>
          by_cases hz : rate = 0
          · simp [convertCurrencyApiExecutor, hE, hRs, hR, hz,
              currencyApiErrEnvelope, topKeys] at h
          · exact ⟨d, rates, rate, rfl, hRs, hR, hz⟩

/-- The value of a successful API-variant currency invocation. -/
theorem api_success_eq (env : CurrencyEnv) (amount : JsNum)
    (fromCurrency toCurrency : String) (sink : Bool) (now : String)
    (d : RatesData) (rates : List (String × ℚ)) (rate : ℚ)
    (hE : env.getRates fromCurrency = .ok (some d)) (hRs : d.rates = some rates)
    (hR : assoc toCurrency rates = some rate) (hz : rate ≠ 0) :
    convertCurrencyApiExecutor env amount fromCurrency toCurrency sink now =
      (Json.obj [("data", Json.obj [
        ("amount", jsonOfJsNum (toFixed2 (jsMul amount (.num rate)))),
        ("fromCurrency", .str fromCurrency),
        ("toCurrency", .str toCurrency),
        ("rate", .num rate),
        ("equivalentString", .str (equivalentStringOf amount fromCurrency toCurrency
          (toFixed2 (jsMul amount (.num rate))))),
        ("timestamp", .str now),
        ("lastUpdated", lastUpdatedJson env d.time_last_updated),
        ("provider", .str (jsStrOr (d.provider.getD "") "Exchange Rate API"))])],
       pubIf sink ⟨"Fetching current exchange rates...", 25⟩ ++
         pubIf sink ⟨"Converting " ++ jsNumToString amount ++ " " ++ fromCurrency ++
           " to " ++ toCurrency ++ "...", 75⟩ ++
         pubIf sink ⟨"Conversion complete!", 100⟩) := by
  simp [convertCurrencyApiExecutor, hE, hRs, hR, hz]

/-- C1: every invocation of any of the three tool executors (weather,
offline currency, API-backed currency) returns an envelope whose top-level
object carries exactly the single key `data` or exactly the single key
`error` — never both, never neither; the executors are total functions of
their inputs and environment, so no failure propagates past the boundary. -/
theorem c1_envelope_exactly_one_of_data_error :
    (∀ env location units sink,
      topKeys (weatherForecastExecutor env location units sink).1 = some ["data"] ∨
      topKeys (weatherForecastExecutor env location units sink).1 = some ["error"]) ∧
    (∀ amount fromCurrency toCurrency sink now,
      topKeys (convertCurrencyExecutor amount fromCurrency toCurrency sink now).1 =
        some ["data"] ∨
      topKeys (convertCurrencyExecutor amount fromCurrency toCurrency sink now).1 =
        some ["error"]) ∧
    (∀ env amount fromCurrency toCurrency sink now,
      topKeys (convertCurrencyApiExecutor env amount fromCurrency toCurrency sink now).1 =
        some ["data"] ∨
      topKeys (convertCurrencyApiExecutor env amount fromCurrency toCurrency sink now).1 =
        some ["error"]) := by
  refine ⟨?_, ?_, ?_⟩
  · intro env location units sink
    cases hE : env.geocode (geoQueryOf location) with
    | error e => right; simp [weatherForecastExecutor, hE, weatherErrEnvelope, topKeys]
    | ok results? =>
      cases results? with
      | none => right; simp [weatherForecastExecutor, hE, weatherErrEnvelope, topKeys]
      | some l =>
        cases l with
        | nil => right; simp [weatherForecastExecutor, hE, weatherErrEnvelope, topKeys]
        | cons r rest =>
          cases hF : env.forecast (weatherQueryOf r units) with
          | error e =>
            right; simp [weatherForecastExecutor, hE, hF, weatherErrEnvelope, topKeys]
          | ok current => left; simp [weatherForecastExecutor, hE, hF, topKeys]
  · intro amount fromCurrency toCurrency sink now
    cases hT : assoc fromCurrency exchangeRates with
    | none => right; simp [convertCurrencyExecutor, hT, currencyErrEnvelope, topKeys]
    | some table =>
      cases hR : assoc toCurrency table with
      | none => right; simp [convertCurrencyExecutor, hT, hR, currencyErrEnvelope, topKeys]
      | some rate =>
        by_cases hz : rate = 0
        · right; simp [convertCurrencyExecutor, hT, hR, hz, currencyErrEnvelope, topKeys]
        · left; simp [convertCurrencyExecutor, hT, hR, hz, topKeys]
  · intro env amount fromCurrency toCurrency sink now
    cases hE : env.getRates fromCurrency with
    | error e => right; simp [convertCurrencyApiExecutor, hE, currencyApiErrEnvelope, topKeys]
    | ok data? =>
      cases data? with
      | none =>
        right; simp [convertCurrencyApiExecutor, hE, currencyApiErrEnvelope, topKeys]
      | some d =>
        cases hRs : d.rates with
        | none =>
          right; simp [convertCurrencyApiExecutor, hE, hRs, currencyApiErrEnvelope, topKeys]
        | some rates =>
          cases hR : assoc toCurrency rates with
          | none =>
            right
            simp [convertCurrencyApiExecutor, hE, hRs, hR, currencyApiErrEnvelope, topKeys]
          | some rate =>
            by_cases hz : rate = 0
            · right
              simp [convertCurrencyApiExecutor, hE, hRs, hR, hz,
                currencyApiErrEnvelope, topKeys]
            · left; simp [convertCurrencyApiExecutor, hE, hRs, hR, hz, topKeys]

/-- C2 counterexample: the offline currency variant, invoked successfully
with a progress sink supplied, delivers the single checkpoint 50 — the
final delivered value is not 100. -/
theorem c2_counterexample :
    topKeys (convertCurrencyExecutor (.num 100) "USD" "EUR" true "t").1 = some ["data"] ∧
    (convertCurrencyExecutor (.num 100) "USD" "EUR" true "t").2.map (·.progress) = [50] ∧
    ((convertCurrencyExecutor (.num 100) "USD" "EUR" true "t").2.map (·.progress)).getLast? ≠
      some 100 := by
  have h : (convertCurrencyExecutor (.num 100) "USD" "EUR" true "t").2.map (·.progress) =
      [50] := by with_unfolding_all rfl
  refine ⟨by with_unfolding_all rfl, h, ?_⟩
  rw [h]
  decide

/-- C2 amended: when a progress sink is supplied and the invocation
succeeds, the weather tool and the API-backed currency variant deliver the
checkpoint sequence 25, 75, 100 — monotonically non-decreasing and ending
at 100 — while the offline rate-table currency variant delivers the single
checkpoint 50 (non-decreasing, but its final value is 50, not 100). -/
theorem c2_amended_progress_checkpoints :
    (∀ env location units,
      topKeys (weatherForecastExecutor env location units true).1 = some ["data"] →
      (weatherForecastExecutor env location units true).2.map (·.progress) = [25, 75, 100] ∧
      List.Chain' (· ≤ ·)
        ((weatherForecastExecutor env location units true).2.map (·.progress)) ∧
      ((weatherForecastExecutor env location units true).2.map (·.progress)).getLast? =
        some 100) ∧
    (∀ env amount fromCurrency toCurrency now,
      topKeys (convertCurrencyApiExecutor env amount fromCurrency toCurrency true now).1 =
        some ["data"] →
      (convertCurrencyApiExecutor env amount fromCurrency toCurrency true now).2.map
        (·.progress) = [25, 75, 100] ∧
      ((convertCurrencyApiExecutor env amount fromCurrency toCurrency true now).2.map
        (·.progress)).getLast? = some 100) ∧
    (∀ amount fromCurrency toCurrency now,
      topKeys (convertCurrencyExecutor amount fromCurrency toCurrency true now).1 =
        some ["data"] →
      (convertCurrencyExecutor amount fromCurrency toCurrency true now).2.map
        (·.progress) = [50]) := by
  refine ⟨?_, ?_, ?_⟩
  · intro env location units h
    obtain ⟨r, rest, current, hG, hF⟩ := weather_success_cases env location units true h
    have he := weather_success_eq env location units true r rest current hG hF
    rw [he]
    refine ⟨rfl, ?_, rfl⟩
    show List.Chain' (· ≤ ·) [(25 : ℕ), 75, 100]
    simp [List.chain'_cons]
  · intro env amount fromCurrency toCurrency now h
    obtain ⟨d, rates, rate, hE, hRs, hR, hz⟩ :=
      api_success_cases env amount fromCurrency toCurrency true now h
    have he := api_success_eq env amount fromCurrency toCurrency true now d rates rate
      hE hRs hR hz
    rw [he]
    exact ⟨rfl, rfl⟩
  · intro amount fromCurrency toCurrency now h
    obtain ⟨table, rate, hT, hR, hz⟩ :=
      offline_success_cases amount fromCurrency toCurrency true now h
    have he := offline_success_eq amount fromCurrency toCurrency true now table rate
      hT hR hz
    rw [he]
    rfl

/-- C2 amended, instantiated: concrete successful runs of the three
executors exhibiting the checkpoint sequences 25/75/100, 25/75/100 and 50. -/
theorem c2_amended_progress_checkpoints_witness :
    (weatherForecastExecutor (sampleWeatherEnv 3) "London" "metric" true).2.map
      (·.progress) = [25, 75, 100] ∧
    (convertCurrencyApiExecutor (sampleCurrencyEnv [("EUR", 0.85)]) (.num 100)
      "USD" "EUR" true "t").2.map (·.progress) = [25, 75, 100] ∧
    (convertCurrencyExecutor (.num 100) "USD" "EUR" true "t").2.map (·.progress) = [50] :=
  ⟨(c2_amended_progress_checkpoints.1 (sampleWeatherEnv 3) "London" "metric" (by rfl)).1,
   (c2_amended_progress_checkpoints.2.1 (sampleCurrencyEnv [("EUR", 0.85)]) (.num 100)
     "USD" "EUR" "t" (by with_unfolding_all rfl)).1,
   c2_amended_progress_checkpoints.2.2 (.num 100) "USD" "EUR" "t"
     (by with_unfolding_all rfl)⟩

/-- A string starting with a nonempty prefix is nonempty. -/
theorem append_ne_empty_left (a b : String) (h : a ≠ "") : a ++ b ≠ "" := by
  intro he
  apply h
  have hl := congrArg String.length he
  rw [String.length_append] at hl
  have : a.length = 0 := by
    have : "".length = 0 := rfl
    omega
  exact String.ext (List.length_eq_zero.mp this)

/-- The message of the offline currency error envelope, when nonempty, is
returned as given. -/
theorem errMessage_offlineEnvelope (msg : String) (h : msg ≠ "") :
    errMessage (currencyErrEnvelope msg) = some msg := by
  simp [currencyErrEnvelope, errMessage, jsonField, assoc, jsStrOr, h]

/-- The message of the API currency error envelope, when nonempty, is
returned as given. -/
theorem errMessage_apiEnvelope (e : JsError) (h : e.message ≠ "") :
    errMessage (currencyApiErrEnvelope e) = some e.message := by
  simp [currencyApiErrEnvelope, errMessage, jsonField, assoc, jsStrOr, h]

/-- C3 counterexample: the offline currency variant reports an unsupported
target pair as `Conversion from USD to XYZ is not supported`, which
differs from the claimed `Conversion to XYZ is not supported`. -/
theorem c3_counterexample :
    errMessage (convertCurrencyExecutor (.num 100) "USD" "XYZ" true "t").1 =
      some "Conversion from USD to XYZ is not supported" ∧
    "Conversion from USD to XYZ is not supported" ≠
      "Conversion to XYZ is not supported" := by
  refine ⟨by with_unfolding_all rfl, by decide⟩

/-- C3 amended: an unsupported target currency yields `error.message`
exactly `Conversion to <code> is not supported` in the API-backed variant,
while the offline rate-table variant yields `Conversion from <from> to
<to> is not supported`. -/
theorem c3_amended_unsupported_target_message :
    (∀ env amount fromCurrency toCurrency sink now d rates,
      env.getRates fromCurrency = .ok (some d) → d.rates = some rates →
      (assoc toCurrency rates = none ∨ assoc toCurrency rates = some 0) →
      errMessage (convertCurrencyApiExecutor env amount fromCurrency toCurrency sink now).1 =
        some ("Conversion to " ++ toCurrency ++ " is not supported")) ∧
    (∀ amount fromCurrency toCurrency sink now table,
      assoc fromCurrency exchangeRates = some table →
      (assoc toCurrency table = none ∨ assoc toCurrency table = some 0) →
      errMessage (convertCurrencyExecutor amount fromCurrency toCurrency sink now).1 =
        some ("Conversion from " ++ fromCurrency ++ " to " ++ toCurrency ++
          " is not supported")) := by
  constructor
  · intro env amount fromCurrency toCurrency sink now d rates hE hRs hR
    have hne : ("Conversion to " ++ toCurrency ++ " is not supported") ≠ "" := by
      rw [String.append_assoc]
      exact append_ne_empty_left _ _ (by decide)
    rcases hR with hR | hR
    · rw [show (convertCurrencyApiExecutor env amount fromCurrency toCurrency sink now).1 =
        currencyApiErrEnvelope ⟨"Conversion to " ++ toCurrency ++ " is not supported", none⟩
        from by simp [convertCurrencyApiExecutor, hE, hRs, hR]]
      exact errMessage_apiEnvelope _ hne
    · rw [show (convertCurrencyApiExecutor env amount fromCurrency toCurrency sink now).1 =
        currencyApiErrEnvelope ⟨"Conversion to " ++ toCurrency ++ " is not supported", none⟩
        from by simp [convertCurrencyApiExecutor, hE, hRs, hR]]
      exact errMessage_apiEnvelope _ hne
  · intro amount fromCurrency toCurrency sink now table hT hR
    have hne : ("Conversion from " ++ fromCurrency ++ " to " ++ toCurrency ++
        " is not supported") ≠ "" := by
      rw [String.append_assoc, String.append_assoc, String.append_assoc]
      exact append_ne_empty_left _ _ (by decide)
    rcases hR with hR | hR
    · rw [show (convertCurrencyExecutor amount fromCurrency toCurrency sink now).1 =
        currencyErrEnvelope ("Conversion from " ++ fromCurrency ++ " to " ++ toCurrency ++
          " is not supported") from by simp [convertCurrencyExecutor, hT, hR]]
      exact errMessage_offlineEnvelope _ hne
    · rw [show (convertCurrencyExecutor amount fromCurrency toCurrency sink now).1 =
        currencyErrEnvelope ("Conversion from " ++ fromCurrency ++ " to " ++ toCurrency ++
          " is not supported") from by simp [convertCurrencyExecutor, hT, hR]]
      exact errMessage_offlineEnvelope _ hne

/-- C3 amended, instantiated: the API variant with a rate table lacking JPY
reports `Conversion to JPY is not supported`; the offline variant on the
unsupported pair USD to XYZ reports the from-to form. -/
theorem c3_amended_witness :
    errMessage (convertCurrencyApiExecutor (sampleCurrencyEnv [("EUR", 0.85)])
      (.num 100) "USD" "JPY" true "t").1 = some "Conversion to JPY is not supported" ∧
    errMessage (convertCurrencyExecutor (.num 100) "USD" "XYZ" true "t").1 =
      some "Conversion from USD to XYZ is not supported" :=
  ⟨c3_amended_unsupported_target_message.1 (sampleCurrencyEnv [("EUR", 0.85)])
      (.num 100) "USD" "JPY" true "t" _ _ rfl rfl (Or.inl rfl),
   c3_amended_unsupported_target_message.2 (.num 100) "USD" "XYZ" true "t" _
      (by with_unfolding_all rfl) (Or.inl (by with_unfolding_all rfl))⟩

/-- C4: in both currency variants the output `amount` equals the input
amount times the rate, rounded to two decimal places with ties going up;
in particular 123.45 at rate 0.8537 rounds to exactly 105.39. -/
theorem c4_rounding_half_up_two_decimals :
    (∀ amount fromCurrency toCurrency sink now table rate,
      assoc fromCurrency exchangeRates = some table →
      assoc toCurrency table = some rate → rate ≠ 0 →
      dataField "amount"
        (convertCurrencyExecutor (.num amount) fromCurrency toCurrency sink now).1 =
        some (.num (roundHalfUp2 (amount * rate)))) ∧
    (∀ env amount fromCurrency toCurrency sink now d rates rate,
      env.getRates fromCurrency = .ok (some d) → d.rates = some rates →
      assoc toCurrency rates = some rate → rate ≠ 0 →
      dataField "amount"
        (convertCurrencyApiExecutor env (.num amount) fromCurrency toCurrency sink now).1 =
        some (.num (roundHalfUp2 (amount * rate)))) ∧
    roundHalfUp2 (123.45 * 0.8537) = 105.39 ∧
    dataField "amount" (convertCurrencyApiExecutor (sampleCurrencyEnv [("EUR", 0.8537)])
      (.num 123.45) "USD" "EUR" true "t").1 = some (.num 105.39) := by
  refine ⟨?_, ?_, by with_unfolding_all rfl, by with_unfolding_all rfl⟩
  · intro amount fromCurrency toCurrency sink now table rate hT hR hz
    rw [show (convertCurrencyExecutor (.num amount) fromCurrency toCurrency sink now).1 =
      _ from congrArg Prod.fst
        (offline_success_eq (.num amount) fromCurrency toCurrency sink now table rate hT hR hz)]
    simp [dataField, jsonField, assoc, jsonOfJsNum, toFixed2, jsMul]
  · intro env amount fromCurrency toCurrency sink now d rates rate hE hRs hR hz
    rw [show (convertCurrencyApiExecutor env (.num amount) fromCurrency toCurrency sink now).1 =
      _ from congrArg Prod.fst
        (api_success_eq env (.num amount) fromCurrency toCurrency sink now d rates rate
          hE hRs hR hz)]
    simp [dataField, jsonField, assoc, jsonOfJsNum, toFixed2, jsMul]

/-- C4, instantiated: a concrete offline conversion whose amount field is
the half-up rounding of amount times rate. -/
theorem c4_rounding_witness :
    dataField "amount" (convertCurrencyExecutor (.num 100) "USD" "EUR" true "t").1 =
      some (.num (roundHalfUp2 (100 * 0.93))) :=
  c4_rounding_half_up_two_decimals.1 100 "USD" "EUR" true "t" _ 0.93
    (by with_unfolding_all rfl) (by with_unfolding_all rfl) (by norm_num)

/-- C5: in both currency variants the `equivalentString` output field reads
`<amount> <from> = <roundedAmount> <to>`, built from the unrounded input
amount and the rounded converted amount; in particular 100 USD at rate
0.85 gives `100 USD = 85 EUR`. -/
theorem c5_equivalent_string_format :
    (∀ amount fromCurrency toCurrency sink now table rate,
      assoc fromCurrency exchangeRates = some table →
      assoc toCurrency table = some rate → rate ≠ 0 →
      dataField "equivalentString"
        (convertCurrencyExecutor amount fromCurrency toCurrency sink now).1 =
        some (.str (jsNumToString amount ++ " " ++ fromCurrency ++ " = " ++
          jsNumToString (toFixed2 (jsMul amount (.num rate))) ++ " " ++ toCurrency))) ∧
    (∀ env amount fromCurrency toCurrency sink now d rates rate,
      env.getRates fromCurrency = .ok (some d) → d.rates = some rates →
      assoc toCurrency rates = some rate → rate ≠ 0 →
      dataField "equivalentString"
        (convertCurrencyApiExecutor env amount fromCurrency toCurrency sink now).1 =
        some (.str (jsNumToString amount ++ " " ++ fromCurrency ++ " = " ++
          jsNumToString (toFixed2 (jsMul amount (.num rate))) ++ " " ++ toCurrency))) ∧
    dataField "equivalentString" (convertCurrencyApiExecutor
      (sampleCurrencyEnv [("EUR", 0.85)]) (.num 100) "USD" "EUR" true "t").1 =
      some (.str "100 USD = 85 EUR") := by
  refine ⟨?_, ?_, by with_unfolding_all rfl⟩
  · intro amount fromCurrency toCurrency sink now table rate hT hR hz
    rw [show (convertCurrencyExecutor amount fromCurrency toCurrency sink now).1 =
      _ from congrArg Prod.fst
        (offline_success_eq amount fromCurrency toCurrency sink now table rate hT hR hz)]
    simp [dataField, jsonField, assoc, equivalentStringOf]
  · intro env amount fromCurrency toCurrency sink now d rates rate hE hRs hR hz
    rw [show (convertCurrencyApiExecutor env amount fromCurrency toCurrency sink now).1 =
      _ from congrArg Prod.fst
        (api_success_eq env amount fromCurrency toCurrency sink now d rates rate
          hE hRs hR hz)]
    simp [dataField, jsonField, assoc, equivalentStringOf]

/-- C5, instantiated: a concrete offline conversion whose equivalence
string is built from the unrounded amount and the rounded result. -/
theorem c5_equivalent_string_witness :
    dataField "equivalentString"
      (convertCurrencyExecutor (.num 100) "USD" "EUR" true "t").1 =
      some (.str (jsNumToString (.num 100) ++ " " ++ "USD" ++ " = " ++
        jsNumToString (toFixed2 (jsMul (.num 100) (.num 0.93))) ++ " " ++ "EUR")) :=
  c5_equivalent_string_format.1 (.num 100) "USD" "EUR" true "t" _ 0.93
    (by with_unfolding_all rfl) (by with_unfolding_all rfl) (by norm_num)

/-- The units block of a successful weather invocation is determined by
the requested unit system alone. -/
theorem weather_units_of_success (env : WeatherEnv) (location units : String) (sink : Bool)
    (h : topKeys (weatherForecastExecutor env location units sink).1 = some ["data"]) :
    dataField "units" (weatherForecastExecutor env location units sink).1 =
      some (unitsJsonOf units) := by
  obtain ⟨r, rest, current, hG, hF⟩ := weather_success_cases env location units sink h
  rw [weather_success_eq env location units sink r rest current hG hF]
  simp [dataField, jsonField, assoc]

/-- C6: the weather code table has exactly 18 entries; codes 0, 61 and 95
map to `Clear sky`, `Slight rain` and `Thunderstorm`; and a successful
invocation whose provider weather code is absent from the table returns a
success envelope carrying the fallback description `Unknown` with the
default icon `03d`. -/
theorem c6_weather_code_map :
    weatherCodeMap.length = 18 ∧
    assoc (0 : ℚ) weatherCodeMap = some ⟨"Clear sky", "01d"⟩ ∧
    assoc (61 : ℚ) weatherCodeMap = some ⟨"Slight rain", "10d"⟩ ∧
    assoc (95 : ℚ) weatherCodeMap = some ⟨"Thunderstorm", "11d"⟩ ∧
    (∀ env location units sink r rest current,
      env.geocode (geoQueryOf location) = .ok (some (r :: rest)) →
      env.forecast (weatherQueryOf r units) = .ok current →
      assoc current.weather_code weatherCodeMap = none →
      topKeys (weatherForecastExecutor env location units sink).1 = some ["data"] ∧
      (dataField "current" (weatherForecastExecutor env location units sink).1).bind
        (jsonField "description") = some (.str "Unknown") ∧
      (dataField "current" (weatherForecastExecutor env location units sink).1).bind
        (jsonField "icon") = some (.str "03d")) := by
  refine ⟨rfl, by with_unfolding_all rfl, by with_unfolding_all rfl,
    by with_unfolding_all rfl, ?_⟩
  intro env location units sink r rest current hG hF hNone
  rw [weather_success_eq env location units sink r rest current hG hF, hNone]
  refine ⟨rfl, ?_, ?_⟩ <;> simp [dataField, jsonField, assoc, currentJsonOf]

/-- C6, instantiated: a successful run whose provider code 42 is not in
the table yields a success envelope with description `Unknown` and icon
`03d`. -/
theorem c6_weather_code_map_witness :
    topKeys (weatherForecastExecutor (sampleWeatherEnv 42) "London" "metric" true).1 =
      some ["data"] ∧
    (dataField "current"
      (weatherForecastExecutor (sampleWeatherEnv 42) "London" "metric" true).1).bind
      (jsonField "description") = some (.str "Unknown") ∧
    (dataField "current"
      (weatherForecastExecutor (sampleWeatherEnv 42) "London" "metric" true).1).bind
      (jsonField "icon") = some (.str "03d") :=
  c6_weather_code_map.2.2.2.2 (sampleWeatherEnv 42) "London" "metric" true
    sampleGeoResult [] (sampleCurrent 42) rfl rfl (by with_unfolding_all rfl)

/-- C7 counterexample: in the API-backed variant an unsupported source
currency does not produce an error naming the source — with a rate
response lacking the rates table for source XXX, the message is the fetch
failure `Failed to fetch exchange rates`, which does not contain `XXX`. -/
theorem c7_counterexample :
    errMessage (convertCurrencyApiExecutor noRatesCurrencyEnv (.num 100) "XXX" "EUR"
      true "t").1 = some "Failed to fetch exchange rates" ∧
    strContains "Failed to fetch exchange rates" "XXX" = false :=
  ⟨by with_unfolding_all rfl, by with_unfolding_all rfl⟩

/-- C7 amended: the offline variant fails on an unsupported source with
`Unsupported currency: <from>`, naming the source; the API-backed variant
performs no source-key check of its own — a response without a rate table
surfaces as the fetch error `Failed to fetch exchange rates`, independent
of the source currency. -/
theorem c7_amended_source_currency_error :
    (∀ amount fromCurrency toCurrency sink now,
      assoc fromCurrency exchangeRates = none →
      errMessage (convertCurrencyExecutor amount fromCurrency toCurrency sink now).1 =
        some ("Unsupported currency: " ++ fromCurrency)) ∧
    (∀ env amount fromCurrency toCurrency sink now d,
      env.getRates fromCurrency = .ok (some d) → d.rates = none →
      errMessage (convertCurrencyApiExecutor env amount fromCurrency toCurrency sink now).1 =
        some "Failed to fetch exchange rates") ∧
    (∀ env amount fromCurrency toCurrency sink now,
      env.getRates fromCurrency = .ok none →
      errMessage (convertCurrencyApiExecutor env amount fromCurrency toCurrency sink now).1 =
        some "Failed to fetch exchange rates") := by
  refine ⟨?_, ?_, ?_⟩
  · intro amount fromCurrency toCurrency sink now hT
    rw [show (convertCurrencyExecutor amount fromCurrency toCurrency sink now).1 =
      currencyErrEnvelope ("Unsupported currency: " ++ fromCurrency) from by
        simp [convertCurrencyExecutor, hT]]
    exact errMessage_offlineEnvelope _ (append_ne_empty_left _ _ (by decide))
  · intro env amount fromCurrency toCurrency sink now d hE hRs
    rw [show (convertCurrencyApiExecutor env amount fromCurrency toCurrency sink now).1 =
      currencyApiErrEnvelope ⟨"Failed to fetch exchange rates", none⟩ from by
        simp [convertCurrencyApiExecutor, hE, hRs]]
    exact errMessage_apiEnvelope _ (by decide)
  · intro env amount fromCurrency toCurrency sink now hE
    rw [show (convertCurrencyApiExecutor env amount fromCurrency toCurrency sink now).1 =
      currencyApiErrEnvelope ⟨"Failed to fetch exchange rates", none⟩ from by
        simp [convertCurrencyApiExecutor, hE]]
    exact errMessage_apiEnvelope _ (by decide)

/-- C7 amended, instantiated: source XXX is reported by name in the
offline variant and as a fetch failure in the API-backed variant. -/
theorem c7_amended_witness :
    errMessage (convertCurrencyExecutor (.num 100) "XXX" "EUR" true "t").1 =
      some ("Unsupported currency: " ++ "XXX") ∧
    errMessage (convertCurrencyApiExecutor noRatesCurrencyEnv (.num 100) "XXX" "EUR"
      true "t").1 = some "Failed to fetch exchange rates" :=
  ⟨c7_amended_source_currency_error.1 (.num 100) "XXX" "EUR" true "t"
      (by with_unfolding_all rfl),
   c7_amended_source_currency_error.2.1 noRatesCurrencyEnv (.num 100) "XXX" "EUR"
      true "t" _ rfl rfl⟩

/-- C8: the units block of the weather output is a function of the
requested unit system only — imperial requests yield °F and mph, metric
requests yield °C and m/s — and two successful runs that differ only in
the conditions provider response carry identical unit blocks. -/
theorem c8_units_from_request_only :
    (∀ env location sink,
      topKeys (weatherForecastExecutor env location "imperial" sink).1 = some ["data"] →
      dataField "units" (weatherForecastExecutor env location "imperial" sink).1 =
        some (.obj [("temperature", .str "°F"), ("wind", .str "mph")])) ∧
    (∀ env location sink,
      topKeys (weatherForecastExecutor env location "metric" sink).1 = some ["data"] →
      dataField "units" (weatherForecastExecutor env location "metric" sink).1 =
        some (.obj [("temperature", .str "°C"), ("wind", .str "m/s")])) ∧
    (∀ env f₂ location units sink,
      topKeys (weatherForecastExecutor env location units sink).1 = some ["data"] →
      topKeys (weatherForecastExecutor { env with forecast := f₂ } location units sink).1 =
        some ["data"] →
      dataField "units" (weatherForecastExecutor env location units sink).1 =
        dataField "units" (weatherForecastExecutor { env with forecast := f₂ }
          location units sink).1) := by
  refine ⟨?_, ?_, ?_⟩
  · intro env location sink h
    rw [weather_units_of_success env location "imperial" sink h]
    simp [unitsJsonOf]
  · intro env location sink h
    rw [weather_units_of_success env location "metric" sink h]
    simp [unitsJsonOf]
  · intro env f₂ location units sink h₁ h₂
    rw [weather_units_of_success env location units sink h₁,
      weather_units_of_success { env with forecast := f₂ } location units sink h₂]

/-- C8, instantiated: imperial and metric unit blocks on concrete runs,
and invariance of the block under a change of the conditions response. -/
theorem c8_units_witness :
    dataField "units" (weatherForecastExecutor (sampleWeatherEnv 3) "NYC" "imperial" true).1 =
      some (.obj [("temperature", .str "°F"), ("wind", .str "mph")]) ∧
    dataField "units" (weatherForecastExecutor (sampleWeatherEnv 3) "London" "metric" true).1 =
      some (.obj [("temperature", .str "°C"), ("wind", .str "m/s")]) ∧
    dataField "units" (weatherForecastExecutor (sampleWeatherEnv 3) "London" "metric" true).1 =
      dataField "units" (weatherForecastExecutor
        { sampleWeatherEnv 3 with forecast := fun _ => .ok (sampleCurrent 95) }
        "London" "metric" true).1 :=
  ⟨c8_units_from_request_only.1 (sampleWeatherEnv 3) "NYC" true (by rfl),
   c8_units_from_request_only.2.1 (sampleWeatherEnv 3) "London" true (by rfl),
   c8_units_from_request_only.2.2 (sampleWeatherEnv 3) (fun _ => .ok (sampleCurrent 95))
     "London" "metric" true (by rfl) (by rfl)⟩

/-- C9: the weather tool uses exactly the first geocoding result — the
output is unchanged when the later results are dropped, the `location`
block is built from the first result's name, country code and
coordinates, and the geocoding response is only ever consulted at the
fixed query with `count = 1`. -/
theorem c9_first_geocode_result :
    (∀ env location units sink r rest,
      env.geocode (geoQueryOf location) = .ok (some (r :: rest)) →
      weatherForecastExecutor env location units sink =
        weatherForecastExecutor { env with geocode := fun _ => .ok (some [r]) }
          location units sink) ∧
    (∀ env location units sink r rest current,
      env.geocode (geoQueryOf location) = .ok (some (r :: rest)) →
      env.forecast (weatherQueryOf r units) = .ok current →
      dataField "location" (weatherForecastExecutor env location units sink).1 =
        some (locationJsonOf r)) ∧
    (∀ env env₂ location units sink,
      (∀ q, q.count = 1 → env₂.geocode q = env.geocode q) →
      env₂.forecast = env.forecast →
      weatherForecastExecutor env₂ location units sink =
        weatherForecastExecutor env location units sink) := by
  refine ⟨?_, ?_, ?_⟩
  · intro env location units sink r rest hG
    simp [weatherForecastExecutor, hG]
  · intro env location units sink r rest current hG hF
    rw [weather_success_eq env location units sink r rest current hG hF]
    simp [dataField, jsonField, assoc]
  · intro env env₂ location units sink hgeo hfc
    unfold weatherForecastExecutor
    rw [hgeo (geoQueryOf location) rfl, hfc]

/-- A weather environment with two geocoding matches, London first. -/
def twoResultWeatherEnv : WeatherEnv :=
  ⟨fun _ => .ok (some [sampleGeoResult, ⟨48.85, 2.35, "Paris", "FR"⟩]),
   fun _ => .ok (sampleCurrent 3)⟩

/-- A weather environment answering geocoding queries only at count 1. -/
def countOneOnlyWeatherEnv : WeatherEnv :=
  ⟨fun q => if q.count = 1 then .ok (some [sampleGeoResult])
    else .error ⟨"bad query", none⟩,
   fun _ => .ok (sampleCurrent 3)⟩

/-- C9, instantiated: with two geocoding matches the second is ignored,
the location block is London's, and an environment that only answers
count-1 queries behaves like the sample environment. -/
theorem c9_first_geocode_witness :
    weatherForecastExecutor twoResultWeatherEnv "London" "metric" true =
      weatherForecastExecutor
        { twoResultWeatherEnv with geocode := fun _ => .ok (some [sampleGeoResult]) }
        "London" "metric" true ∧
    dataField "location" (weatherForecastExecutor twoResultWeatherEnv "London" "metric"
      true).1 = some (locationJsonOf sampleGeoResult) ∧
    weatherForecastExecutor countOneOnlyWeatherEnv "London" "metric" true =
      weatherForecastExecutor (sampleWeatherEnv 3) "London" "metric" true :=
  ⟨c9_first_geocode_result.1 twoResultWeatherEnv "London" "metric" true
      sampleGeoResult [⟨48.85, 2.35, "Paris", "FR"⟩] rfl,
   c9_first_geocode_result.2.1 twoResultWeatherEnv "London" "metric" true
      sampleGeoResult [⟨48.85, 2.35, "Paris", "FR"⟩] (sampleCurrent 3) rfl rfl,
   c9_first_geocode_result.2.2 (sampleWeatherEnv 3) countOneOnlyWeatherEnv
      "London" "metric" true (fun q hq => by
        show (if q.count = 1 then _ else _) = _
        rw [if_pos hq]
        rfl) rfl⟩

/-- C10: neither currency executor validates `amount` — with a supported
currency pair the invocation returns a success envelope for every amount
value, and a missing (undefined) or non-numeric (NaN) amount yields a
`data` object whose converted `amount` field serializes as null, NaN
having no JSON representation. -/
theorem c10_amount_not_validated :
    (∀ amount fromCurrency toCurrency sink now table rate,
      assoc fromCurrency exchangeRates = some table →
      assoc toCurrency table = some rate → rate ≠ 0 →
      topKeys (convertCurrencyExecutor amount fromCurrency toCurrency sink now).1 =
        some ["data"] ∧
      ((amount = .undefined ∨ amount = .nan) →
        dataField "amount" (convertCurrencyExecutor amount fromCurrency toCurrency
          sink now).1 = some Json.null)) ∧
    (∀ env amount fromCurrency toCurrency sink now d rates rate,
      env.getRates fromCurrency = .ok (some d) → d.rates = some rates →
      assoc toCurrency rates = some rate → rate ≠ 0 →
      topKeys (convertCurrencyApiExecutor env amount fromCurrency toCurrency sink now).1 =
        some ["data"] ∧
      ((amount = .undefined ∨ amount = .nan) →
        dataField "amount" (convertCurrencyApiExecutor env amount fromCurrency
          toCurrency sink now).1 = some Json.null)) := by
  constructor
  · intro amount fromCurrency toCurrency sink now table rate hT hR hz
    have he := congrArg Prod.fst
      (offline_success_eq amount fromCurrency toCurrency sink now table rate hT hR hz)
    refine ⟨by rw [he]; rfl, ?_⟩
    intro ha
    rcases ha with ha | ha <;> subst ha <;> rw [he] <;>
      simp [dataField, jsonField, assoc, jsMul, toFixed2, jsonOfJsNum]
  · intro env amount fromCurrency toCurrency sink now d rates rate hE hRs hR hz
    have he := congrArg Prod.fst
      (api_success_eq env amount fromCurrency toCurrency sink now d rates rate hE hRs hR hz)
    refine ⟨by rw [he]; rfl, ?_⟩
    intro ha
    rcases ha with ha | ha <;> subst ha <;> rw [he] <;>
      simp [dataField, jsonField, assoc, jsMul, toFixed2, jsonOfJsNum]

/-- C10, instantiated: an undefined amount on the supported pair USD to
EUR still succeeds, with a null `amount` field, in both variants. -/
theorem c10_amount_not_validated_witness :
    (topKeys (convertCurrencyExecutor .undefined "USD" "EUR" true "t").1 = some ["data"] ∧
      dataField "amount" (convertCurrencyExecutor .undefined "USD" "EUR" true "t").1 =
        some Json.null) ∧
    (topKeys (convertCurrencyApiExecutor (sampleCurrencyEnv [("EUR", 0.85)]) .undefined
        "USD" "EUR" true "t").1 = some ["data"] ∧
      dataField "amount" (convertCurrencyApiExecutor (sampleCurrencyEnv [("EUR", 0.85)])
        .undefined "USD" "EUR" true "t").1 = some Json.null) := by
  have h₁ := c10_amount_not_validated.1 .undefined "USD" "EUR" true "t" _ 0.93
    (by with_unfolding_all rfl) (by with_unfolding_all rfl) (by norm_num)
  have h₂ := c10_amount_not_validated.2 (sampleCurrencyEnv [("EUR", 0.85)]) .undefined
    "USD" "EUR" true "t" _ _ 0.85 rfl rfl (by with_unfolding_all rfl) (by norm_num)
  exact ⟨⟨h₁.1, h₁.2 (Or.inl rfl)⟩, ⟨h₂.1, h₂.2 (Or.inl rfl)⟩⟩
